import Mathlib

/-!
A shallow embedding of the value-validation and color-normalization layer of
the geopandas-kml repository (`geopandas_kml/_utils/validation.py`,
`geopandas_kml/validation.py`, `geopandas_kml/settings.py`,
`geopandas_kml/utils.py`), together with theorems settling the frozen claims.

Python runtime values that flow through the validators are modelled by the
inductive type `PyVal`: strings, ints, floats (modelled as exact rationals —
every float literal appearing in the claims, such as 0.5 and 1.0, is exactly
representable), bools, numpy fixed-width scalars, and lists/tuples.
Exceptions are modelled with `Except`.
-/

namespace GKml

/-- A Python float, modelled as the exact fraction `num / den` (`den`
positive by construction at every use site; every float literal appearing in
the claims — 0.5, 1.0, 2.0 — is an exact binary float, so this model is
faithful on them). -/
structure PyFloat : Type where
  num : Int
  den : Nat
deriving DecidableEq

/-- Python `int()` truncation toward zero of a float. -/
def PyFloat.trunc (a : PyFloat) : Int :=
  if 0 ≤ a.num then ((a.num.toNat / a.den : Nat) : Int)
  else -(((((-a.num).toNat) / a.den : Nat) : Int))

/-- Multiplication of a float by a natural number (used for `alpha * 255`). -/
def PyFloat.mulNat (a : PyFloat) (k : Nat) : PyFloat :=
  { num := a.num * k, den := a.den }

/-- A Python runtime value as seen by the validators. `npInt`, `npFloat`,
`npStr` stand for the numpy fixed-width scalar types (`np.int8..64`,
`np.float16..64` — modelled after `np.int64`/`np.float64` —, `np.str_`). -/
inductive PyVal : Type where
  | str (s : String)
  | int (n : Int)
  | float (q : PyFloat)
  | bool (b : Bool)
  | npInt (n : Int)
  | npFloat (q : PyFloat)
  | npStr (s : String)
  | list (xs : List PyVal)
  | tuple (xs : List PyVal)

/-- The Python primitive types the validators compare against. -/
inductive PyType : Type where
  | int
  | float
  | str
  | bool
  | list
  | tuple
deriving DecidableEq

/-- Python `isinstance`: note that `bool` is a subclass of `int`,
`np.float64` of `float`, and `np.str_` of `str`. -/
def isinstance : PyVal → PyType → Bool
  | .bool _, .bool => true
  | .bool _, .int => true
  | .int _, .int => true
  | .float _, .float => true
  | .npFloat _, .float => true
  | .str _, .str => true
  | .npStr _, .str => true
  | .list _, .list => true
  | .tuple _, .tuple => true
  | _, _ => false

/-- The `np_types` normalization table of `iterable_specific_type`: numpy
fixed-width scalars collapse to the base `int`/`float`/`str` value. -/
def np_normalize : PyVal → PyVal
  | .npInt n => .int n
  | .npFloat q => .float q
  | .npStr s => .str s
  | v => v

/-- The underlying string of a Python `str` (or `np.str_`) value. -/
def strOfPyVal : PyVal → Option String
  | .str s => some s
  | .npStr s => some s
  | _ => none


/-- Python `len` for the container values (strings included). -/
def pyLen : PyVal → Option Nat
  | .str s => some s.length
  | .npStr s => some s.length
  | .list xs => some xs.length
  | .tuple xs => some xs.length
  | _ => none

/-- Python iteration: the elements of a container; iterating a string yields
its one-character strings. -/
def pyIterElems : PyVal → Option (List PyVal)
  | .list xs => some xs
  | .tuple xs => some xs
  | .str s => some (s.toList.map (fun c => PyVal.str (String.mk [c])))
  | .npStr s => some (s.toList.map (fun c => PyVal.str (String.mk [c])))
  | _ => none

/-- Python `isinstance(v, collections.abc.Iterable)` for the modelled types:
strings, lists and tuples are iterable; the numeric scalars are not. -/
def pyIsIterable : PyVal → Bool
  | .str _ => true
  | .npStr _ => true
  | .list _ => true
  | .tuple _ => true
  | _ => false

/-- Python `isinstance(v, float)` (`np.float64` is a float subclass). -/
def pyIsFloat : PyVal → Bool
  | .float _ => true
  | .npFloat _ => true
  | _ => false

mutual

/-- `dimensional_count` of `_utils/validation.py` (line 28) and
`validation.py` (line 47): recursively determine the dimensionality.
The Python code is
`return 1 + max(dimensional_count(item) for item in value) if value else 1`
for a `tuple | list | np.ndarray | pd.Series` input and `0` otherwise
(ndarray/Series inputs are first converted to nested lists by `.tolist()`;
here `list`/`tuple` stand for all four container forms). -/
def dimensional_count : PyVal → Nat
  | .list xs => if xs.isEmpty then 1 else 1 + dimMaxList xs
  | .tuple xs => if xs.isEmpty then 1 else 1 + dimMaxList xs
  | _ => 0

/-- Python `max(dimensional_count(item) for item in value)` (over a nonempty
list this fold with base 0 computes exactly that maximum). -/
def dimMaxList : List PyVal → Nat
  | [] => 0
  | x :: xs => Nat.max (dimensional_count x) (dimMaxList xs)

end

/-- `value_range_8bit` of `_utils/validation.py` (line 67):
`0 <= value <= 255`, lifted to `PyVal` items as the call sites use it
(non-numeric values would raise a `TypeError` in Python, but every call site
guards with a type check first). -/
def value_range_8bit (value : PyVal) : Bool :=
  match value with
  | .int n => decide (0 ≤ n) && decide (n ≤ 255)
  | .npInt n => decide (0 ≤ n) && decide (n ≤ 255)
  | .bool _ => true
  | .float a => decide (0 ≤ a.num) && decide (a.num ≤ 255 * (a.den : Int))
  | .npFloat a => decide (0 ≤ a.num) && decide (a.num ≤ 255 * (a.den : Int))
  | _ => false

/-- `value_range_1` of `_utils/validation.py` (line 78): `0 <= value <= 1`,
on the float alpha (for a positive denominator, `a <= 1` is
`a.num <= a.den`). -/
def value_range_1 (value : PyFloat) : Bool :=
  decide (0 ≤ value.num) && decide (value.num ≤ (value.den : Int))

/-- `iterable_specific_type` of `_utils/validation.py` (line 91) and
`validation.py` (line 110): if the dimensionality is strictly between 0 and 3,
every top-level item (numpy scalars normalized to base types first) must be an
instance of the target type; otherwise `False`. -/
def iterable_specific_type (value : PyVal) (type_ : PyType) : Bool :=
  let dimensional := dimensional_count value
  if 0 < dimensional ∧ dimensional < 3 then
    match value with
    | .list xs => xs.all (fun item => isinstance (np_normalize item) type_)
    | .tuple xs => xs.all (fun item => isinstance (np_normalize item) type_)
    | _ => false
  else false

/-- `HEX_PATTERN = string.hexdigits + "#"` of `_utils/validation.py`. -/
def HEX_PATTERN : String := "0123456789abcdefABCDEF#"

/-- Python `c in HEX_PATTERN`. -/
def isHexChar (c : Char) : Bool := HEX_PATTERN.toList.contains c

/-- Python `value.replace("#", "")`: remove every marker character. -/
def stripHash (s : String) : String :=
  String.mk (s.toList.filter (fun c => c ≠ '#'))

/-- One lowercase hexadecimal digit. -/
def hexDigit (n : Nat) : Char :=
  if n < 10 then Char.ofNat (48 + n) else Char.ofNat (87 + n)

/-- Python `f"{n:02x}"` for `0 <= n <= 255`: two lowercase hex digits. -/
def toHex2 (n : Nat) : String :=
  String.mk [hexDigit (n / 16 % 16), hexDigit (n % 16)]

/-- `NAMED_COLORS` of `settings.py`. -/
def NAMED_COLORS : List (String × String) :=
  [("tomato", "#ff6347"), ("teal", "#008b8b"), ("royalblue", "#4169e1"),
   ("firebrick", "#b22222"), ("seagreen", "#2e8b57"), ("dodgerblue", "#1e90ff"),
   ("red", "#ff0000"), ("green", "#00ff00"), ("blue", "#0000ff"),
   ("gold", "#ffa500"), ("lime", "#00ff00"), ("cyan", "#00ffff"),
   ("maroon", "#800000"), ("olive", "#808000"), ("indigo", "#4b0082"),
   ("crimson", "#dc143c"), ("yellowgreen", "#9acd32"), ("navy", "#000080"),
   ("pink", "#ffc0cb"), ("skyblue", "#87ceeb"), ("springgreen", "#00ff7f"),
   ("magenta", "#ff00ff"), ("yellow", "#ffff00"), ("brown", "#a52a2a"),
   ("steelblue", "#4682b4"), ("violet", "#ee82ee"), ("white", "#ffffff"),
   ("gray", "#808080"), ("black", "#000000")]

/-- Python `NAMED_COLORS.get(s)`. -/
def namedColorLookup (s : String) : Option String :=
  (NAMED_COLORS.find? (fun p => p.1 == s)).map (fun p => p.2)

/-- Python `item in NAMED_COLORS` (dict key membership; a non-string item is
simply not a key). -/
def inNamedColors (v : PyVal) : Bool :=
  match strOfPyVal v with
  | some s => (namedColorLookup s).isSome
  | none => false

/-- The hex looked up for a color-name value (call sites guarantee the name is
present, mirroring `NAMED_COLORS.get(item)` on validated input). -/
def namedHexOf (v : PyVal) : String :=
  ((strOfPyVal v).bind namedColorLookup).getD ""

/-- The hex representation stored by a detector: a single code or a list of
codes (`self.hex` of the `Is...` classes). -/
inductive HexVal : Type where
  | single (s : String)
  | multi (l : List String)
deriving DecidableEq

/-- The observable state of a detector instance after `__init__`:
`self.is_valid`, `self.is_iterable`, `self.hex`. -/
structure Detector : Type where
  is_valid : Bool
  is_iterable : Bool
  hex : Option HexVal
deriving DecidableEq

/-- `IsColorName` of `_utils/validation.py` (line 282): depth 0 and a string
key of `NAMED_COLORS`, or depth 1 with every element a key; on success the hex
is the table lookup (list of lookups in sequence mode). -/
def isColorName (value : PyVal) : Detector :=
  let dimension := dimensional_count value
  if dimension == 0 && isinstance value .str then
    if inNamedColors value then
      { is_valid := true, is_iterable := false,
        hex := some (.single (namedHexOf value)) }
    else { is_valid := false, is_iterable := false, hex := none }
  else if dimension == 1 then
    let items := (pyIterElems value).getD []
    if items.all inNamedColors then
      { is_valid := true, is_iterable := true,
        hex := some (.multi (items.map namedHexOf)) }
    else { is_valid := false, is_iterable := true, hex := none }
  else { is_valid := false, is_iterable := false, hex := none }

/-- The integer content of a range-checked RGB channel, for hex formatting
(call sites have already checked `isinstance(·, int)` and the 0..255 range;
a Python `bool` formats as 0/1). -/
def pyIntLike : PyVal → Nat
  | .int n => n.toNat
  | .npInt n => n.toNat
  | .bool b => if b then 1 else 0
  | _ => 0

/-- `IsRgb._to_hex_code` of `_utils/validation.py` (line 231):
`f"#{value[0]:02x}{value[1]:02x}{value[2]:02x}"`. -/
def to_hex_code (value : PyVal) : String :=
  let xs := (pyIterElems value).getD []
  "#" ++ toHex2 (pyIntLike (xs.getD 0 (.int 0)))
      ++ toHex2 (pyIntLike (xs.getD 1 (.int 0)))
      ++ toHex2 (pyIntLike (xs.getD 2 (.int 0)))

/-- `IsRgb` of `_utils/validation.py` (line 175): depth 1 must be an int
triple in byte range; depth 2 a sequence of such triples; the hex is the
per-triple `#rrggbb` conversion. -/
def isRgb (value : PyVal) : Detector :=
  let dimension := dimensional_count value
  if dimension == 1 then
    if iterable_specific_type value .int
        && (pyLen value).getD 0 == 3
        && ((pyIterElems value).getD []).all value_range_8bit then
      { is_valid := true, is_iterable := false,
        hex := some (.single (to_hex_code value)) }
    else { is_valid := false, is_iterable := false, hex := none }
  else if dimension == 2 then
    let items := (pyIterElems value).getD []
    if items.all (fun item =>
        iterable_specific_type item .int
        && (pyLen item).getD 0 == 3
        && ((pyIterElems item).getD []).all value_range_8bit) then
      { is_valid := true, is_iterable := true,
        hex := some (.multi (items.map to_hex_code)) }
    else { is_valid := false, is_iterable := true, hex := none }
  else { is_valid := false, is_iterable := false, hex := none }

/-- `IsHexCode` of `_utils/validation.py` (line 235): depth 0 requires a
string of length 6 or 7 whose characters all lie in `HEX_PATTERN`; depth 1
requires every element to be a string of length 6 or 7 (note: no character
check in the depth-1 branch of the source); the stored hex is the value
unchanged. -/
def isHexCode (value : PyVal) : Detector :=
  let dimension := dimensional_count value
  if dimension == 0 && isinstance value .str then
    let s := (strOfPyVal value).getD ""
    if s.length == 7 || s.length == 6 then
      if s.toList.all isHexChar then
        { is_valid := true, is_iterable := false, hex := some (.single s) }
      else { is_valid := false, is_iterable := false, hex := none }
    else { is_valid := false, is_iterable := false, hex := none }
  else if dimension == 1 then
    let items := (pyIterElems value).getD []
    if items.all (fun item => isinstance item .str
        && (((strOfPyVal item).getD "").length == 7
            || ((strOfPyVal item).getD "").length == 6)) then
      { is_valid := true, is_iterable := true,
        hex := some (.multi (items.map (fun i => (strOfPyVal i).getD ""))) }
    else { is_valid := false, is_iterable := true, hex := none }
  else { is_valid := false, is_iterable := false, hex := none }

/-- The two Python exception kinds raised by this layer. -/
inductive PyErr : Type where
  | typeError (msg : String)
  | valueError (msg : String)
deriving DecidableEq

/-- The message carried by an exception. -/
def PyErr.msg : PyErr → String
  | .typeError m => m
  | .valueError m => m

/-- `hex_alpha_to_hex_abgr` of `_utils/validation.py` (line 127): strip every
marker, require exactly 6 hex digits, require a float alpha in [0, 1], then
emit `f"#{int(alpha*255):02x}{b}{g}{r}"` (alpha-blue-green-red). Error
messages are modelled by their leading sentence. -/
def hex_alpha_to_hex_abgr (value : PyVal) (alpha : PyVal) : Except PyErr String :=
  match strOfPyVal value with
  | none => .error (.typeError "The value must be a string.")
  | some s0 =>
    let v := stripHash s0
    let is_hex := v.length == 6 && v.toList.all isHexChar
    if !is_hex then
      .error (.valueError "The value must be a 6-digit hexadecimal code.")
    else
      match alpha with
      | .float a =>
        if !(value_range_1 a) then
          .error (.valueError "The alpha value must be between 0 and 1.")
        else
          let cs := v.toList
          let r := String.mk (cs.take 2)
          let g := String.mk ((cs.drop 2).take 2)
          let b := String.mk ((cs.drop 4).take 2)
          .ok ("#" ++ toHex2 ((a.mulNat 255).trunc).toNat ++ b ++ g ++ r)
      | .npFloat a =>
        if !(value_range_1 a) then
          .error (.valueError "The alpha value must be between 0 and 1.")
        else
          let cs := v.toList
          let r := String.mk (cs.take 2)
          let g := String.mk ((cs.drop 2).take 2)
          let b := String.mk ((cs.drop 4).take 2)
          .ok ("#" ++ toHex2 ((a.mulNat 255).trunc).toNat ++ b ++ g ++ r)
      | _ => .error (.typeError "The alpha value must be a float.")

/-- Python `len(hex_code)` inside `_hex_to_kml_color` (a single stored hex is
a string, a sequence is a list). -/
def hexLen : HexVal → Nat
  | .single s => s.length
  | .multi l => l.length

/-- Python iteration over `hex_code` inside `zip(hex_code, alpha)`. -/
def hexElems : HexVal → List PyVal
  | .single s => s.toList.map (fun c => PyVal.str (String.mk [c]))
  | .multi l => l.map PyVal.str

/-- The stored hex as the Python value it is. -/
def HexVal.toPyVal : HexVal → PyVal
  | .single s => .str s
  | .multi l => .list (l.map PyVal.str)

/-- The Python list comprehension
`[hex_alpha_to_hex_abgr(h, a) for h, a in zip(hex_code, alpha)]`: pairs are
converted left to right and the first exception aborts the whole call. -/
def zipConvert : List PyVal → List PyVal → Except PyErr (List String)
  | [], _ => .ok []
  | _ :: _, [] => .ok []
  | h :: hs, a :: al =>
    match hex_alpha_to_hex_abgr h a with
    | .error e => .error e
    | .ok s =>
      match zipConvert hs al with
      | .error e => .error e
      | .ok ss => .ok (s :: ss)

/-- `NormalizeColor._hex_to_kml_color` of `_utils/validation.py` (line 383):
sequence colors reject an iterable alpha of different length, broadcast a
scalar float alpha, and otherwise zip-convert pairwise; a single color accepts
only a float alpha, an iterable alpha is a type-mismatch error. -/
def hex_to_kml_color (is_iterable : Bool) (hex_code : HexVal) (alpha : PyVal) :
    Except PyErr HexVal :=
  let is_iterable_alpha := pyIsIterable alpha
  if is_iterable then
    if is_iterable_alpha && !(hexLen hex_code == (pyLen alpha).getD 0) then
      .error (.valueError
        "The length of the hex code and alpha value must be the same.")
    else
      let alphaList : Option (List PyVal) :=
        if pyIsFloat alpha then some (List.replicate (hexLen hex_code) alpha)
        else pyIterElems alpha
      match alphaList with
      | none => .error (.typeError "zip argument is not iterable.")
      | some alphas => (zipConvert (hexElems hex_code) alphas).map HexVal.multi
  else
    if pyIsFloat alpha then
      (hex_alpha_to_hex_abgr hex_code.toPyVal alpha).map HexVal.single
    else if pyIsIterable alpha then
      .error (.valueError "HexCode and alpha types do not match.")
    else
      .error (.valueError "The alpha value must be a float or a list of floats.")

/-- `NormalizeColor._validation` of `_utils/validation.py` (line 369): try
`IsColorName`, `IsRgb`, `IsHexCode` in that order; the first success supplies
`self.hex` and `self.is_iterable`. -/
def normalizeColor_validation (value : PyVal) : Detector :=
  let c := isColorName value
  if c.is_valid then c
  else
    let r := isRgb value
    if r.is_valid then r
    else
      let h := isHexCode value
      if h.is_valid then h
      else { is_valid := false, is_iterable := false, hex := none }

/-- The observable state of a `NormalizeColor` instance after `__init__`. -/
structure NormColor : Type where
  is_valid : Bool
  is_iterable : Bool
  hex : Option HexVal
  kml_hex : Option HexVal
deriving DecidableEq

/-- `NormalizeColor.__init__` of `_utils/validation.py` (line 330): run the
detector chain; on success convert through `_hex_to_kml_color` (whose raised
exception propagates out of the constructor); on failure `kml_hex` stays
`None`. -/
def normalizeColor (value : PyVal) (alpha : PyVal) : Except PyErr NormColor :=
  let st := normalizeColor_validation value
  if st.is_valid then
    match st.hex with
    | some hx =>
      match hex_to_kml_color st.is_iterable hx alpha with
      | .ok k => .ok { is_valid := true, is_iterable := st.is_iterable,
                       hex := some hx, kml_hex := some k }
      | .error e => .error e
    | none => .ok { is_valid := true, is_iterable := st.is_iterable,
                    hex := none, kml_hex := none }
  else .ok { is_valid := false, is_iterable := st.is_iterable,
             hex := st.hex, kml_hex := none }

/-- Python `str.split(sep)` for a one-character separator (`""` splits to
`[""]`, matching Python). -/
def splitOnChar (sep : Char) : List Char → List (List Char)
  | [] => [[]]
  | c :: rest =>
    let r := splitOnChar sep rest
    if c == sep then [] :: r
    else
      match r with
      | [] => [[c]]
      | g :: gs => (c :: g) :: gs

/-- Insert the indent after every newline
(Python `s.replace("\n", "\n" + IDT)`). -/
def replaceNewlines (idt : List Char) : List Char → List Char
  | [] => []
  | c :: rest =>
    if c == '\n' then c :: (idt ++ replaceNewlines idt rest)
    else c :: replaceNewlines idt rest

/-- `IDT = " " * 4` of `utils.py`. -/
def IDT : String := "    "

/-- `formatter` of `utils.py` (line 9): per input line, greedily word-wrap to
`max_cols` columns (every word is emitted with a trailing space, a fresh line
is started before a word that would overflow), prefix each emitted line with a
newline, then indent every newline with `IDT`. -/
def formatter (sentence : String) (max_cols : Nat) : String :=
  let formatLine := fun (line : List Char) =>
    ((splitOnChar ' ' line).foldl
      (fun (acc : List Char × Nat) w =>
        let acc2 := if max_cols < acc.2 + w.length then (acc.1 ++ ['\n'], 0)
                    else acc
        (acc2.1 ++ w ++ [' '], acc2.2 + w.length + 1))
      (['\n'], 0)).1
  String.mk (replaceNewlines IDT.toList
    (((splitOnChar '\n' sentence.toList).map formatLine).foldl
      (fun acc l => acc ++ l) []))

/-- `BACK_WORD` of `utils.py`, after `.format`:
`"\nThe value you passed ---> kward: {kward}: type: {type}, value: {value}"`.
The braces are the format slots filled below. -/
def BACK_WORD (kward type_ value : String) : String :=
  "\nThe value you passed ---> kward: " ++ kward ++ ": type: " ++ type_
    ++ ", value: " ++ value

/-- Python `str(type(v))`. -/
def pyTypeName : PyVal → String
  | .str _ => "<class \u0027str\u0027>"
  | .int _ => "<class \u0027int\u0027>"
  | .float _ => "<class \u0027float\u0027>"
  | .bool _ => "<class \u0027bool\u0027>"
  | .npInt _ => "<class \u0027numpy.int64\u0027>"
  | .npFloat _ => "<class \u0027numpy.float64\u0027>"
  | .npStr _ => "<class \u0027numpy.str_\u0027>"
  | .list _ => "<class \u0027list\u0027>"
  | .tuple _ => "<class \u0027tuple\u0027>"

/-- Python `str(v)` for the values the error messages interpolate (container
rendering is abbreviated; no claim inspects a container message). -/
def pyStr : PyVal → String
  | .str s => s
  | .npStr s => s
  | .int n => toString n
  | .npInt n => toString n
  | .bool b => if b then "True" else "False"
  | .float q => toString q.num ++ "/" ++ toString q.den
  | .npFloat q => toString q.num ++ "/" ++ toString q.den
  | .list _ => "[...]"
  | .tuple _ => "(...)"

/-- Decimal digits to a natural number, Python-`int`-style (every character
must be a digit). -/
def parseNatDigits (cs : List Char) : Option Nat :=
  match cs with
  | [] => none
  | _ =>
    if cs.all Char.isDigit then
      some (cs.foldl (fun a c => a * 10 + (c.toNat - 48)) 0)
    else none

/-- Python `int(s)` on a string: an optional sign then decimal digits,
otherwise `invalid literal` (whitespace/underscore tolerance is not needed by
any claim input). -/
def parseIntLiteral (cs : List Char) : Option Int :=
  match cs with
  | '-' :: rest => (parseNatDigits rest).map (fun n => -(n : Int))
  | '+' :: rest => (parseNatDigits rest).map (fun n => (n : Int))
  | _ => (parseNatDigits cs).map (fun n => (n : Int))

/-- Python `int(v)`: ints and numpy ints pass through, bools map to 0/1,
floats truncate toward zero, strings parse as decimal literals, containers
raise `TypeError`. -/
def pyInt : PyVal → Except PyErr Int
  | .int n => .ok n
  | .npInt n => .ok n
  | .bool b => .ok (if b then 1 else 0)
  | .float q => .ok q.trunc
  | .npFloat q => .ok q.trunc
  | .str s =>
    match parseIntLiteral s.toList with
    | some n => .ok n
    | none => .error (.valueError
        ("invalid literal for int() with base 10: \u0027" ++ s ++ "\u0027"))
  | .npStr s =>
    match parseIntLiteral s.toList with
    | some n => .ok n
    | none => .error (.valueError
        ("invalid literal for int() with base 10: \u0027" ++ s ++ "\u0027"))
  | .list _ => .error (.typeError
      "int() argument must be a string, a bytes-like object or a real number")
  | .tuple _ => .error (.typeError
      "int() argument must be a string, a bytes-like object or a real number")

/-- Python `bool(v)`: truthiness. -/
def pyBool : PyVal → Bool
  | .bool b => b
  | .int n => n != 0
  | .npInt n => n != 0
  | .float q => q.num != 0
  | .npFloat q => q.num != 0
  | .str s => s.length != 0
  | .npStr s => s.length != 0
  | .list xs => !xs.isEmpty
  | .tuple xs => !xs.isEmpty

/-- `ValidateGeometry._validate_bool` of `validation.py` (line 222): a true
`bool` is returned unchanged; otherwise `int(value)` must be 0 or 1 and the
truthiness `bool(value)` of the original value is returned; any other case
raises `ValueError` whose message is the word-wrapped
`"value must be a boolean." + BACK_WORD` text (the caught exception text is
appended; a bare `raise ValueError` contributes the empty string). -/
def validate_bool (value : PyVal) : Except String Bool :=
  match value with
  | .bool b => .ok b
  | v =>
    let msg := "value must be a boolean."
      ++ BACK_WORD "value" (pyTypeName v) (pyStr v)
    match pyInt v with
    | .ok n =>
      if n == 0 || n == 1 then .ok (pyBool v)
      else .error (formatter msg 100 ++ "")
    | .error e => .error (formatter msg 100 ++ e.msg)

/-- Whether `sub` occurs contiguously inside `s`. -/
def containsSub (s sub : String) : Bool :=
  (List.range (s.toList.length + 1)).any
    (fun i => (s.toList.drop i).take sub.toList.length == sub.toList)

/-- Whether an `Except` outcome is an error whose message contains `sub`. -/
def errContains (r : Except String Bool) (sub : String) : Bool :=
  match r with
  | .error m => containsSub m sub
  | .ok _ => false

/-- A value with no iterable container structure (string, number, boolean,
numpy scalar): everything except a list/tuple. -/
def isScalarPyVal : PyVal → Bool
  | .list _ => false
  | .tuple _ => false
  | _ => true

set_option maxRecDepth 10000

/-- The recursive maximum over a list of dimensionalities is the fold of
`Nat.max`. -/
theorem dimMaxList_eq_foldr (xs : List PyVal) :
    dimMaxList xs = (xs.map dimensional_count).foldr Nat.max 0 := by
  induction xs with
  | nil => simp [dimMaxList]
  | cons x xs ih => simp [dimMaxList, ih]

/-- Every list value has dimensionality at least 1. -/
theorem one_le_dim_list (xs : List PyVal) :
    1 ≤ dimensional_count (.list xs) := by
  cases xs with
  | nil => simp [dimensional_count]
  | cons x xs => simp [dimensional_count]

/-- Every tuple value has dimensionality at least 1. -/
theorem one_le_dim_tuple (xs : List PyVal) :
    1 ≤ dimensional_count (.tuple xs) := by
  cases xs with
  | nil => simp [dimensional_count]
  | cons x xs => simp [dimensional_count]

/-- Non-container values have dimensionality 0. -/
theorem scalar_dim_zero (v : PyVal) (h : isScalarPyVal v = true) :
    dimensional_count v = 0 := by
  cases v <;> simp_all [isScalarPyVal, dimensional_count]

/-- A value of positive dimensionality is a list or a tuple. -/
theorem pos_dim_container {x : PyVal} (h : 0 < dimensional_count x) :
    (∃ ys, x = .list ys) ∨ (∃ ys, x = .tuple ys) := by
  cases x <;> simp_all [dimensional_count]

/-- If the maximum element dimensionality is positive, some element has
positive dimensionality. -/
theorem dimMaxList_pos {xs : List PyVal} (h : 0 < dimMaxList xs) :
    ∃ x ∈ xs, 0 < dimensional_count x := by
  induction xs with
  | nil => simp [dimMaxList] at h
  | cons x xs ih =>
    rw [dimMaxList, lt_max_iff] at h
    rcases h with h | h
    · exact ⟨x, List.mem_cons_self x xs, h⟩
    · obtain ⟨y, hy, hdy⟩ := ih h
      exact ⟨y, List.mem_cons_of_mem x hy, hdy⟩


/-- Claim C1: normalizing the named color "red" with alpha 0.5 yields exactly
"#7f0000ff": the alpha channel is the 2-digit lowercase hex of the 0-255
integer obtained from 0.5 (0x7f = 127 = int(0.5 * 255)), followed by the
blue, green, red channels of the looked-up hex #ff0000, in
alpha-blue-green-red order, byte for byte. -/
theorem normalize_red_half_alpha :
    normalizeColor (.str "red") (.float ⟨1, 2⟩) =
      .ok { is_valid := true, is_iterable := false,
            hex := some (.single "#ff0000"),
            kml_hex := some (.single "#7f0000ff") }
    ∧ namedColorLookup "red" = some "#ff0000"
    ∧ PyFloat.trunc (PyFloat.mulNat ⟨1, 2⟩ 255) = 127
    ∧ toHex2 127 = "7f" :=
  ⟨rfl, rfl, rfl, rfl⟩

/-- Claim C6: the dimensionality inspector maps every non-container scalar to
0, every empty sequence to 1, and every non-empty sequence to 1 plus the
maximum dimensionality of its elements; `[[a]]` maps to 2 and `[[[a]]]` to 3
for any scalar `a`. -/
theorem dimensional_count_spec :
    (∀ v, isScalarPyVal v = true → dimensional_count v = 0)
    ∧ dimensional_count (.list []) = 1
    ∧ dimensional_count (.tuple []) = 1
    ∧ (∀ x xs, dimensional_count (.list (x :: xs))
        = 1 + ((x :: xs).map dimensional_count).foldr Nat.max 0)
    ∧ (∀ x xs, dimensional_count (.tuple (x :: xs))
        = 1 + ((x :: xs).map dimensional_count).foldr Nat.max 0)
    ∧ (∀ a, isScalarPyVal a = true →
        dimensional_count (.list [.list [a]]) = 2
        ∧ dimensional_count (.list [.list [.list [a]]]) = 3) := by
  refine ⟨scalar_dim_zero, rfl, rfl, ?_, ?_, ?_⟩
  · intro x xs
    rw [← dimMaxList_eq_foldr]
    simp [dimensional_count]
  · intro x xs
    rw [← dimMaxList_eq_foldr]
    simp [dimensional_count]
  · intro a ha
    have h0 := scalar_dim_zero a ha
    constructor <;> simp [dimensional_count, dimMaxList, h0]

/-- Witness for `dimensional_count_spec` at concrete scalars. -/
theorem dimensional_count_spec_witness :
    dimensional_count (.int 7) = 0
    ∧ (dimensional_count (.list [.list [.str "a"]]) = 2
       ∧ dimensional_count (.list [.list [.list [.str "a"]]]) = 3) :=
  ⟨dimensional_count_spec.1 (.int 7) rfl,
   dimensional_count_spec.2.2.2.2.2 (.str "a") rfl⟩

/-- Claim C9: the single string "ff##ff" (length 6, drawn only from hex
digits and the marker) is accepted by the hex-string detector, yet
normalizing it with the valid alpha 0.5 raises a ValueError, because the
compositing step strips every marker and then requires exactly 6 hex
digits. -/
theorem hex_marker_length_mismatch :
    (isHexCode (.str "ff##ff")).is_valid = true
    ∧ value_range_1 ⟨1, 2⟩ = true
    ∧ stripHash "ff##ff" = "ffff"
    ∧ normalizeColor (.str "ff##ff") (.float ⟨1, 2⟩) =
        .error (.valueError "The value must be a 6-digit hexadecimal code.") :=
  ⟨rfl, rfl, rfl, rfl⟩

/-- Counterexample to claim C2 as stated: a depth-2 nested sequence whose
leaves are all ints is NOT accepted by the type-homogeneity checker (its
top-level items are lists, which are not instances of `int`), even though
each inner row passes on its own. -/
theorem iterable_specific_type_depth2_cex :
    dimensional_count (.list [.list [.int 1, .int 2],
                              .list [.int 3, .int 4]]) = 2
    ∧ iterable_specific_type (.list [.int 1, .int 2]) .int = true
    ∧ iterable_specific_type (.list [.list [.int 1, .int 2],
                                     .list [.int 3, .int 4]]) .int = false :=
  ⟨rfl, rfl, rfl⟩

/-- Counterexample to claim C3 as stated: the 6-character string "zzzzzz"
violates the depth-0 shape rule (non-hex letters), yet the depth-1 sequence
["zzzzzz"] is accepted by the hex-string detector, because the depth-1
branch checks only `str`-ness and length. -/
theorem isHexCode_depth1_content_unchecked_cex :
    (isHexCode (.str "zzzzzz")).is_valid = false
    ∧ (isHexCode (.list [.str "zzzzzz"])).is_valid = true :=
  ⟨rfl, rfl⟩

/-- Counterexample to claim C8 as stated: "red" with alpha 0.5 normalizes
successfully to the KML code "#7f0000ff", but re-validating that normalized
code fails: the detector chain rejects the 9-character string (the hex
detector only accepts lengths 6 and 7), so `NormalizeColor` on its own
output reports invalid and produces no code at all. -/
theorem normalize_not_idempotent_cex :
    normalizeColor (.str "red") (.float ⟨1, 2⟩) =
      .ok { is_valid := true, is_iterable := false,
            hex := some (.single "#ff0000"),
            kml_hex := some (.single "#7f0000ff") }
    ∧ (normalizeColor_validation (.str "#7f0000ff")).is_valid = false
    ∧ normalizeColor (.str "#7f0000ff") (.float ⟨1, 1⟩) =
        .ok { is_valid := false, is_iterable := false,
              hex := none, kml_hex := none } :=
  ⟨rfl, rfl, rfl⟩


/-- Scalars (depth 0) are always rejected by the type-homogeneity checker. -/
theorem ist_scalar_false (v : PyVal) (type_ : PyType)
    (h : isScalarPyVal v = true) :
    iterable_specific_type v type_ = false := by
  cases v <;> simp_all [isScalarPyVal, iterable_specific_type, dimensional_count]

/-- On a list, the type-homogeneity checker succeeds exactly when the
dimensionality is below 3 and every top-level item, numpy-normalized, is an
instance of the target type. -/
theorem ist_list_iff (xs : List PyVal) (type_ : PyType) :
    iterable_specific_type (.list xs) type_ = true ↔
      (dimensional_count (.list xs) < 3
       ∧ xs.all (fun item => isinstance (np_normalize item) type_) = true) := by
  have h1 := one_le_dim_list xs
  constructor
  · intro h
    simp only [iterable_specific_type] at h
    split at h
    · next hd => exact ⟨hd.2, h⟩
    · exact absurd h (by simp)
  · rintro ⟨hlt, hall⟩
    simp only [iterable_specific_type]
    rw [if_pos ⟨by omega, hlt⟩]
    exact hall

/-- On a tuple, the same characterization as `ist_list_iff`. -/
theorem ist_tuple_iff (xs : List PyVal) (type_ : PyType) :
    iterable_specific_type (.tuple xs) type_ = true ↔
      (dimensional_count (.tuple xs) < 3
       ∧ xs.all (fun item => isinstance (np_normalize item) type_) = true) := by
  have h1 := one_le_dim_tuple xs
  constructor
  · intro h
    simp only [iterable_specific_type] at h
    split at h
    · next hd => exact ⟨hd.2, h⟩
    · exact absurd h (by simp)
  · rintro ⟨hlt, hall⟩
    simp only [iterable_specific_type]
    rw [if_pos ⟨by omega, hlt⟩]
    exact hall

/-- A container value is never an instance of a primitive type. -/
theorem isinstance_container_false (type_ : PyType)
    (hl : type_ ≠ .list) (ht : type_ ≠ .tuple) (x : PyVal)
    (hx : (∃ ys, x = .list ys) ∨ (∃ ys, x = .tuple ys)) :
    isinstance (np_normalize x) type_ = false := by
  rcases hx with ⟨ys, rfl⟩ | ⟨ys, rfl⟩ <;>
    cases type_ <;> simp_all [np_normalize, isinstance]

/-- A depth-2 list is rejected by the type-homogeneity checker for every
primitive (non-container) target type: its items are themselves lists. -/
theorem ist_depth2_false (xs : List PyVal) (type_ : PyType)
    (hl : type_ ≠ .list) (ht : type_ ≠ .tuple)
    (hd2 : dimensional_count (.list xs) = 2) :
    iterable_specific_type (.list xs) type_ = false := by
  by_contra hc
  rw [Bool.not_eq_false, ist_list_iff] at hc
  obtain ⟨-, hall⟩ := hc
  rw [List.all_eq_true] at hall
  have hpos : 0 < dimMaxList xs := by
    cases xs with
    | nil => simp [dimensional_count] at hd2
    | cons x more =>
      simp [dimensional_count] at hd2
      omega
  obtain ⟨x, hx, hdx⟩ := dimMaxList_pos hpos
  have hins := hall x hx
  rw [isinstance_container_false type_ hl ht x (pos_dim_container hdx)] at hins
  exact Bool.false_ne_true hins

/-- Claim C2 (amended): the checker returns true only when the
dimensionality is 1 or 2 and every TOP-LEVEL item — after normalizing the
numpy fixed-width subtypes — is an instance of the target type; scalars are
rejected, and a depth-2 nested sequence is always rejected for a primitive
target type because its items are sequences, not leaves. -/
theorem iterable_specific_type_spec :
    (∀ v type_, isScalarPyVal v = true →
        iterable_specific_type v type_ = false)
    ∧ (∀ xs type_, iterable_specific_type (.list xs) type_ = true ↔
        (dimensional_count (.list xs) < 3
         ∧ xs.all (fun item => isinstance (np_normalize item) type_) = true))
    ∧ (∀ xs type_, iterable_specific_type (.tuple xs) type_ = true ↔
        (dimensional_count (.tuple xs) < 3
         ∧ xs.all (fun item => isinstance (np_normalize item) type_) = true))
    ∧ (∀ xs type_, type_ ≠ .list → type_ ≠ .tuple →
        dimensional_count (.list xs) = 2 →
        iterable_specific_type (.list xs) type_ = false) :=
  ⟨ist_scalar_false, ist_list_iff, ist_tuple_iff, ist_depth2_false⟩

/-- Witness for `iterable_specific_type_spec` at concrete inputs. -/
theorem iterable_specific_type_spec_witness :
    iterable_specific_type (.int 5) .int = false
    ∧ iterable_specific_type (.list [.int 1]) .int = true
    ∧ iterable_specific_type (.list [.list [.int 1]]) .int = false :=
  ⟨iterable_specific_type_spec.1 (.int 5) .int rfl,
   (iterable_specific_type_spec.2.1 [.int 1] .int).mpr ⟨by decide, rfl⟩,
   iterable_specific_type_spec.2.2.2 [.list [.int 1]] .int
     (by decide) (by decide) rfl⟩

/-- Claim C3 (amended): for a depth-1 sequence the hex-string detector
succeeds if and only if every element is a string of length 6 or 7 — the
hex-digit content rule is enforced only at depth 0, not inside sequences. -/
theorem isHexCode_depth1_characterization :
    ∀ xs : List PyVal, (isHexCode (.list xs)).is_valid = true ↔
      (dimensional_count (.list xs) = 1
       ∧ xs.all (fun item => isinstance item .str
           && (((strOfPyVal item).getD "").length == 7
               || ((strOfPyVal item).getD "").length == 6)) = true) := by
  intro xs
  have h1 := one_le_dim_list xs
  have h0 : ((dimensional_count (.list xs) == 0)
      && isinstance (.list xs) .str) = false := by
    simp [isinstance]
  simp only [isHexCode, h0, pyIterElems, Option.getD_some, Bool.false_eq_true,
    if_false]
  by_cases hd : dimensional_count (.list xs) = 1
  · rw [if_pos (by simpa using hd)]
    by_cases hall : xs.all (fun item => isinstance item .str
        && (((strOfPyVal item).getD "").length == 7
            || ((strOfPyVal item).getD "").length == 6)) = true
    · rw [if_pos hall]
      simp [hd, hall]
    · rw [if_neg hall]
      simp [hd, hall]
  · rw [if_neg (by simpa using hd)]
    simp [hd]

/-- Claim C4: the color normalizer tries the named-color, RGB, and
hex-string detectors in that fixed order and the first success determines
the resulting hex; the list ["tomato"] is accepted by both the named-color
and the hex-string detector, and the named-color hex #ff6347 wins. -/
theorem normalize_detector_priority :
    (∀ v, (isColorName v).is_valid = true →
        normalizeColor_validation v = isColorName v)
    ∧ (∀ v, (isColorName v).is_valid = false → (isRgb v).is_valid = true →
        normalizeColor_validation v = isRgb v)
    ∧ (∀ v, (isColorName v).is_valid = false → (isRgb v).is_valid = false →
        (isHexCode v).is_valid = true →
        normalizeColor_validation v = isHexCode v)
    ∧ (isColorName (.list [.str "tomato"])).is_valid = true
    ∧ (isHexCode (.list [.str "tomato"])).is_valid = true
    ∧ (normalizeColor_validation (.list [.str "tomato"])).hex
        = some (.multi ["#ff6347"]) := by
  refine ⟨?_, ?_, ?_, rfl, rfl, rfl⟩
  · intro v h
    simp [normalizeColor_validation, h]
  · intro v h1 h2
    simp [normalizeColor_validation, h1, h2]
  · intro v h1 h2 h3
    simp [normalizeColor_validation, h1, h2, h3]

/-- Witness for `normalize_detector_priority`, exercising each priority
rank at a concrete input. -/
theorem normalize_detector_priority_witness :
    normalizeColor_validation (.str "red") = isColorName (.str "red")
    ∧ normalizeColor_validation (.tuple [.int 1, .int 2, .int 3])
        = isRgb (.tuple [.int 1, .int 2, .int 3])
    ∧ normalizeColor_validation (.str "abcdef") = isHexCode (.str "abcdef") :=
  ⟨normalize_detector_priority.1 _ rfl,
   normalize_detector_priority.2.1 _ rfl rfl,
   normalize_detector_priority.2.2.1 _ rfl rfl rfl⟩


/-- The single-pair converter never raises the length-mismatch error: its
own errors concern only the hex string shape and the alpha type/range. -/
theorem hex_alpha_no_length_error (v a : PyVal) :
    hex_alpha_to_hex_abgr v a
      ≠ .error (.valueError
          "The length of the hex code and alpha value must be the same.") := by
  unfold hex_alpha_to_hex_abgr
  cases hsv : strOfPyVal v with
  | none => simp
  | some s0 =>
    simp only []
    split
    · simp
    · cases a <;> simp_all <;> split <;> simp

/-- The pairwise zip conversion never raises the length-mismatch error
either: any error it propagates comes from a single pair. -/
theorem zipConvert_no_length_error (l1 l2 : List PyVal) :
    zipConvert l1 l2
      ≠ .error (.valueError
          "The length of the hex code and alpha value must be the same.") := by
  induction l1 generalizing l2 with
  | nil => simp [zipConvert]
  | cons h hs ih =>
    cases l2 with
    | nil => simp [zipConvert]
    | cons a al =>
      simp only [zipConvert]
      cases hc : hex_alpha_to_hex_abgr h a with
      | error e =>
        intro hq
        injection hq with he
        exact hex_alpha_no_length_error h a (hc.trans (by rw [he]))
      | ok s =>
        cases hz : zipConvert hs al with
        | error e =>
          intro hq
          injection hq with he
          exact ih al (hz.trans (by rw [he]))
        | ok ss => simp

/-- Claim C5: in the alpha-compositing step, sequence colors with a sequence
alpha raise the length-mismatch error exactly when the lengths differ, and on
equal lengths each (color, alpha) pair is converted independently by the
single-value rule; sequence colors with a scalar float alpha broadcast that
alpha to every color; a single color with a sequence alpha always fails with
the type-mismatch error. -/
theorem hex_to_kml_color_shapes :
    (∀ hs al, hs.length ≠ al.length →
      hex_to_kml_color true (.multi hs) (.list al)
        = .error (.valueError
            "The length of the hex code and alpha value must be the same."))
    ∧ (∀ hs al, hs.length = al.length →
      hex_to_kml_color true (.multi hs) (.list al)
        = (zipConvert (hs.map PyVal.str) al).map HexVal.multi)
    ∧ (∀ hs a, hex_to_kml_color true (.multi hs) (.float a)
        = (zipConvert (hs.map PyVal.str)
            (List.replicate hs.length (.float a))).map HexVal.multi)
    ∧ (∀ s al, hex_to_kml_color false (.single s) (.list al)
        = .error (.valueError "HexCode and alpha types do not match."))
    ∧ (∀ l1 l2, zipConvert l1 l2
        ≠ .error (.valueError
            "The length of the hex code and alpha value must be the same.")) := by
  refine ⟨?_, ?_, ?_, ?_, zipConvert_no_length_error⟩
  · intro hs al hne
    have hb : (hs.length == al.length) = false := by
      simpa using hne
    simp [hex_to_kml_color, pyIsIterable, hexLen, pyLen, hb]
  · intro hs al heq
    have hb : (hs.length == al.length) = true := by
      simpa using heq
    simp [hex_to_kml_color, pyIsIterable, hexLen, pyLen, hb, pyIsFloat,
      pyIterElems, hexElems]
  · intro hs a
    simp [hex_to_kml_color, pyIsIterable, hexLen, pyIsFloat, hexElems]
  · intro s al
    simp [hex_to_kml_color, pyIsIterable, pyIsFloat]

/-- Witness for `hex_to_kml_color_shapes` at concrete inputs: two colors
with one alpha raise the length error; matched lengths convert pairwise. -/
theorem hex_to_kml_color_shapes_witness :
    hex_to_kml_color true (.multi ["#ff0000", "#0000ff"])
        (.list [.float ⟨1, 1⟩])
      = .error (.valueError
          "The length of the hex code and alpha value must be the same.")
    ∧ hex_to_kml_color true (.multi ["#ff0000"]) (.list [.float ⟨1, 1⟩])
        = (zipConvert [.str "#ff0000"] [.float ⟨1, 1⟩]).map HexVal.multi :=
  ⟨hex_to_kml_color_shapes.1 ["#ff0000", "#0000ff"] [.float ⟨1, 1⟩]
     (by decide),
   hex_to_kml_color_shapes.2.1 ["#ff0000"] [.float ⟨1, 1⟩] rfl⟩

/-- A successful boolean validation of a non-`bool` value forces the integer
conversion to be 0 or 1 and returns the truthiness of the original value. -/
theorem validate_bool_ok_characterization (v : PyVal) (r : Bool)
    (h : validate_bool v = .ok r) :
    (∃ b, v = .bool b ∧ r = b)
    ∨ ((pyInt v = .ok 0 ∨ pyInt v = .ok 1) ∧ r = pyBool v) := by
  cases v with
  | bool b =>
    left
    simp only [validate_bool] at h
    injection h with h1
    exact ⟨b, rfl, h1.symm⟩
  | int n =>
    right
    simp only [validate_bool, pyInt] at h
    split at h
    · next hc =>
      injection h with h1
      refine ⟨?_, h1.symm⟩
      simp only [Bool.or_eq_true, beq_iff_eq] at hc
      rcases hc with hc | hc <;> simp [pyInt, hc]
    · simp at h
  | npInt n =>
    right
    simp only [validate_bool, pyInt] at h
    split at h
    · next hc =>
      injection h with h1
      refine ⟨?_, h1.symm⟩
      simp only [Bool.or_eq_true, beq_iff_eq] at hc
      rcases hc with hc | hc <;> simp [pyInt, hc]
    · simp at h
  | float q =>
    right
    simp only [validate_bool, pyInt] at h
    split at h
    · next hc =>
      injection h with h1
      refine ⟨?_, h1.symm⟩
      simp only [Bool.or_eq_true, beq_iff_eq] at hc
      rcases hc with hc | hc <;> simp [pyInt, hc]
    · simp at h
  | npFloat q =>
    right
    simp only [validate_bool, pyInt] at h
    split at h
    · next hc =>
      injection h with h1
      refine ⟨?_, h1.symm⟩
      simp only [Bool.or_eq_true, beq_iff_eq] at hc
      rcases hc with hc | hc <;> simp [pyInt, hc]
    · simp at h
  | str s =>
    right
    simp only [validate_bool, pyInt] at h
    cases hps : parseIntLiteral s.toList with
    | none => rw [hps] at h; simp at h
    | some n =>
      simp only [hps] at h
      split at h
      · next hc =>
        injection h with h1
        refine ⟨?_, h1.symm⟩
        simp only [Bool.or_eq_true, beq_iff_eq] at hc
        rcases hc with hc | hc <;>
          simp [pyInt, show parseIntLiteral s.data = some n from hps, hc]
      · simp at h
  | npStr s =>
    right
    simp only [validate_bool, pyInt] at h
    cases hps : parseIntLiteral s.toList with
    | none => rw [hps] at h; simp at h
    | some n =>
      simp only [hps] at h
      split at h
      · next hc =>
        injection h with h1
        refine ⟨?_, h1.symm⟩
        simp only [Bool.or_eq_true, beq_iff_eq] at hc
        rcases hc with hc | hc <;>
          simp [pyInt, show parseIntLiteral s.data = some n from hps, hc]
      · simp at h
  | list xs =>
    simp only [validate_bool, pyInt] at h
    simp at h
  | tuple xs =>
    simp only [validate_bool, pyInt] at h
    simp at h

/-- Claim C7: boolean coercion maps True to True, 1 to True, 0 to False,
raises on 2 and on "yes" with a message naming the offending value type and
text, returns true booleans unchanged, and accepts a non-boolean only when
its integer conversion is 0 or 1. -/
theorem validate_bool_spec :
    validate_bool (.bool true) = .ok true
    ∧ validate_bool (.int 1) = .ok true
    ∧ validate_bool (.int 0) = .ok false
    ∧ (validate_bool (.int 2)).isOk = false
    ∧ errContains (validate_bool (.int 2)) (pyTypeName (.int 2)) = true
    ∧ errContains (validate_bool (.int 2)) (pyStr (.int 2)) = true
    ∧ (validate_bool (.str "yes")).isOk = false
    ∧ errContains (validate_bool (.str "yes")) (pyTypeName (.str "yes")) = true
    ∧ errContains (validate_bool (.str "yes")) (pyStr (.str "yes")) = true
    ∧ (∀ b, validate_bool (.bool b) = .ok b)
    ∧ (∀ v r, validate_bool v = .ok r →
        (∃ b, v = .bool b ∧ r = b)
        ∨ ((pyInt v = .ok 0 ∨ pyInt v = .ok 1) ∧ r = pyBool v)) := by
  refine ⟨rfl, rfl, rfl, rfl, by decide, by decide, rfl, by decide, by decide,
    ?_, validate_bool_ok_characterization⟩
  intro b
  cases b <;> rfl

/-- Witness for `validate_bool_spec`, applying the acceptance
characterization at the concrete input 1. -/
theorem validate_bool_spec_witness :
    (∃ b, PyVal.int 1 = .bool b ∧ true = b)
    ∨ ((pyInt (.int 1) = .ok 0 ∨ pyInt (.int 1) = .ok 1)
       ∧ true = pyBool (.int 1)) :=
  validate_bool_spec.2.2.2.2.2.2.2.2.2.2 (.int 1) true rfl

/-- Claim C8 (amended): idempotence holds for the detector-level 6/7-character
hex form — the hex-string detector stores an accepted depth-0 code unchanged,
and re-validating such a code (for example "#ff0000") through the
normalizer detector chain yields the same code — but the final normalized
KML color code (marker plus 8 hex digits, for example "#7f0000ff") does NOT
re-validate: the normalizer reports it invalid. -/
theorem hex_revalidation_idempotence :
    (∀ s, (isHexCode (.str s)).is_valid = true →
      (isHexCode (.str s)).hex = some (.single s))
    ∧ (normalizeColor_validation (.str "#ff0000")).is_valid = true
    ∧ (normalizeColor_validation (.str "#ff0000")).hex
        = some (.single "#ff0000")
    ∧ (normalizeColor_validation (.str "#7f0000ff")).is_valid = false := by
  refine ⟨?_, rfl, rfl, rfl⟩
  intro s h
  have e : isHexCode (.str s)
      = (if s.length == 7 || s.length == 6 then
           (if s.toList.all isHexChar then
              ({ is_valid := true, is_iterable := false,
                 hex := some (.single s) } : Detector)
            else { is_valid := false, is_iterable := false, hex := none })
         else { is_valid := false, is_iterable := false, hex := none }) := rfl
  rw [e] at h ⊢
  by_cases h1 : (s.length == 7 || s.length == 6) = true
  · rw [if_pos h1] at h ⊢
    by_cases h2 : (s.toList.all isHexChar) = true
    · rw [if_pos h2]
    · rw [if_neg h2] at h
      simp at h
  · rw [if_neg h1] at h
    simp at h

/-- Witness for `hex_revalidation_idempotence` at a concrete accepted code. -/
theorem hex_revalidation_idempotence_witness :
    (isHexCode (.str "ffffff")).hex = some (.single "ffffff") :=
  hex_revalidation_idempotence.1 "ffffff" rfl

/-- Claim C10: the boolean coercion validator accepts the non-integer float
0.5 (its truncation is 0, which passes the 0/1 check) and returns the
truthiness of the original value — True, not False; in general any float
whose truncation is 0 or 1 is accepted and the original truthiness is
returned. -/
theorem validate_bool_float_truthiness :
    validate_bool (.float ⟨1, 2⟩) = .ok true
    ∧ PyFloat.trunc ⟨1, 2⟩ = 0
    ∧ pyBool (.float ⟨1, 2⟩) = true
    ∧ (∀ q : PyFloat, q.trunc = 0 ∨ q.trunc = 1 →
        validate_bool (.float q) = .ok (pyBool (.float q))) := by
  refine ⟨rfl, rfl, rfl, ?_⟩
  intro q hq
  simp only [validate_bool, pyInt]
  have hc : (q.trunc == 0 || q.trunc == 1) = true := by
    rcases hq with h | h <;> simp [h]
  rw [if_pos hc]

/-- Witness for `validate_bool_float_truthiness` at the float one half. -/
theorem validate_bool_float_truthiness_witness :
    validate_bool (.float ⟨1, 2⟩) = .ok (pyBool (.float ⟨1, 2⟩)) :=
  validate_bool_float_truthiness.2.2.2 ⟨1, 2⟩ (Or.inl rfl)

end GKml
